import Mathlib

/-
Verification of the Price-Alert tracker (src/app.py) against its
specification.  The embedding models the tracked-product records stored in
products.json, the scraping outcome of scrape_product_details, the per-product
update step of update_all_products, the add/delete routes, and the persistence
helpers load_products / save_products.  Prices are modelled as rationals;
timestamps and ids are opaque strings supplied as parameters (they are the
results of datetime.now() and uuid.uuid4() in the source).
-/

namespace PriceAlert

/-- One tracked-product record, with the fields written by app.py
(`id`, `url`, `product_name`, `current_price`, `lowest_price`, `last_check`).
`current_price` and `lowest_price` are absent (`none`) when never observed,
and `last_check` is absent until a successful observation. -/
structure Product where
  id : String
  url : String
  product_name : String
  current_price : Option ℚ
  lowest_price : Option ℚ
  last_check : Option String
deriving DecidableEq, Repr

/-- Outcome of `scrape_product_details (url)` (src/app.py lines 54-93):
`fail` covers a request error or a captcha page, where the function returns
`(None, None)`; `parsed price name` covers a fetched page, where the price may
still be absent (no price tag, or unparsable text) but the name is always a
string (falling back to the literal used by the source when the title tag is
missing). -/
inductive ScrapeResult where
  | fail : ScrapeResult
  | parsed : Option ℚ → String → ScrapeResult
deriving DecidableEq, Repr

/-- First component of the pair returned by `scrape_product_details`. -/
def ScrapeResult.price : ScrapeResult → Option ℚ
  | .fail => none
  | .parsed p _ => p

/-- Second component of the pair returned by `scrape_product_details`. -/
def ScrapeResult.pname : ScrapeResult → Option String
  | .fail => none
  | .parsed _ n => some n

/-- The contents of the drop message sent by `send_telegram` in
`update_all_products` (src/app.py lines 112-119): product name, old price,
new price, drop amount and url. -/
structure DropAlert where
  product_name : String
  old_price : ℚ
  new_price : ℚ
  drop_amount : ℚ
  url : String
deriving DecidableEq, Repr

/-- The inner alert conditional of `update_all_products` (lines 112-119):
`if old_price is not None and final_price < old_price`, building the message
with `drop_amount = old_price - final_price`. -/
def dropMsg (old_price : Option ℚ) (final_price : ℚ)
    (product_name url : String) : Option DropAlert :=
  match old_price with
  | some op =>
      if final_price < op then
        some ⟨product_name, op, final_price, op - final_price, url⟩
      else none
  | none => none

/-- The per-product body of the loop in `update_all_products`
(src/app.py lines 99-119): when the scraped price is absent the record is
untouched and nothing is sent; otherwise the record's name, current price and
last-check time are overwritten, the lowest price is lowered when the new
price beats it (`current_lowest is None or final_price < current_lowest`),
and — inside that same branch, exactly as in the source — the drop alert is
considered.  Returns the updated record and the alert sent, if any. -/
def sweepProduct (res : ScrapeResult) (now : String) (p : Product) :
    Product × Option DropAlert :=
  match res with
  | .fail => (p, none)
  | .parsed none _ => (p, none)
  | .parsed (some final_price) product_name =>
      let old_price := p.current_price
      let p1 : Product :=
        { p with
            product_name := product_name
            current_price := some final_price
            last_check := some now }
      match p.lowest_price with
      | none =>
          ({ p1 with lowest_price := some final_price },
            dropMsg old_price final_price product_name p.url)
      | some current_lowest =>
          if final_price < current_lowest then
            ({ p1 with lowest_price := some final_price },
              dropMsg old_price final_price product_name p.url)
          else (p1, none)

/-- One pass of `update_all_products` over a loaded list: the updated records
in order, and the alerts sent during the pass.  `scr` gives the scrape
outcome for each url in this sweep. -/
def update_products (scr : String → ScrapeResult) (now : String)
    (ps : List Product) : List Product × List DropAlert :=
  (ps.map fun p => (sweepProduct (scr p.url) now p).1,
    ps.filterMap fun p => (sweepProduct (scr p.url) now p).2)

/-- State of the backing file `products.json`: missing (open raises
FileNotFoundError), corrupt (json.load raises JSONDecodeError), truncated
(opened for writing but contents not yet written, an empty file, which
json.load also rejects), or holding a parsed list of records. -/
inductive FileState where
  | missing : FileState
  | corrupt : FileState
  | truncated : FileState
  | data : List Product → FileState
deriving DecidableEq, Repr

/-- `load_products` (src/app.py lines 32-37): returns the parsed list, and
returns `[]` on FileNotFoundError or JSONDecodeError (a missing, corrupt or
empty file). -/
def load_products : FileState → List Product
  | .missing => []
  | .corrupt => []
  | .truncated => []
  | .data ps => ps

/-- The final file state produced by `save_products` (src/app.py lines 39-41):
the serialized list replaces the previous contents. -/
def save_products (ps : List Product) : FileState :=
  .data ps

/-- The file states observable while `save_products` runs:
`open(PRICE_DATA_FILE, "w")` truncates the file in place before `json.dump`
writes the new contents, so a concurrent reader sees the truncated file
first and the completed contents only after the dump. -/
def save_products_trace (ps : List Product) : List FileState :=
  [.truncated, .data ps]

/-- Whether a reader of the file at this state sees a well-formed document
(json.load succeeds): only a fully written data state is readable. -/
def readable : FileState → Bool
  | .data _ => true
  | _ => false

/-- One iteration of the `while True` body of `update_all_products`
(src/app.py lines 97-120): load every record, update each from its scrape
outcome, save the whole collection once.  Returns the new file state and the
alerts sent. -/
def update_all_products_once (scr : String → ScrapeResult) (now : String)
    (fs : FileState) : FileState × List DropAlert :=
  let products := load_products fs
  let out := update_products scr now products
  (save_products out.1, out.2)

/-- Python truthiness of the scraped price as used on src/app.py line 147
(`if price`): false for an absent price and for the number zero. -/
def truthyPrice : Option ℚ → Bool
  | none => false
  | some q => decide (q ≠ 0)

/-- The record built by `add_product` (src/app.py lines 141-148): the fresh id
and the given url; the name from the scrape with the source's falsy-string
fallback; `current_price` and `lowest_price` both set to the scraped price;
`last_check` set to now only when the price is truthy (line 147 tests
`if price`, not `if price is not None`). -/
def new_product (newId url now : String) (res : ScrapeResult) : Product :=
  let price := res.price
  let product_name :=
    match res.pname with
    | some n => if n = "" then "Unknown Product" else n
    | none => "Unknown Product"
  { id := newId
    url := url
    product_name := product_name
    current_price := price
    lowest_price := price
    last_check := if truthyPrice price then some now else none }

/-- The `/add` route (src/app.py lines 131-163): a falsy url is rejected with
no change; otherwise the new record is appended to the loaded collection, the
collection is saved immediately, and the boolean reports whether the
new-product message was sent (`if price is not None`, line 155). -/
def add_product (newId url now : String) (res : ScrapeResult)
    (fs : FileState) : FileState × Bool :=
  if url = "" then (fs, false)
  else
    let products := load_products fs ++ [new_product newId url now res]
    (save_products products, res.price.isSome)

/-- The `/delete/<product_id>` route (src/app.py lines 166-171): load, keep
every record whose id differs, save. -/
def delete_product (product_id : String) (fs : FileState) : FileState :=
  save_products ((load_products fs).filter fun p => p.id != product_id)

/-- File states reachable by the system from a fresh start (no products.json
yet) through the three operations that write the store: the add route, one
sweep iteration, and the delete route. -/
inductive Reachable : FileState → Prop where
  | init : Reachable .missing
  | add (newId url now : String) (res : ScrapeResult) {fs : FileState} :
      Reachable fs → Reachable (add_product newId url now res fs).1
  | sweep (scr : String → ScrapeResult) (now : String) {fs : FileState} :
      Reachable fs → Reachable (update_all_products_once scr now fs).1
  | del (product_id : String) {fs : FileState} :
      Reachable fs → Reachable (delete_product product_id fs)

/-- The record-level invariant of the data model: the stored lowest price is
at most the stored current price whenever both are present. -/
def lowLeCur (p : Product) : Prop :=
  ∀ low cp, p.lowest_price = some low → p.current_price = some cp → low ≤ cp

/-- A concrete record whose current price (1000) sits strictly above its
lowest price (800); such a record arises after sweeps observe 800 and then
1000. -/
def pDemo : Product :=
  ⟨"p1", "u1", "n1", some 1000, some 800, some "t0"⟩

/-- Scenario of spec section 8: the record built when the product is added
with observed price 1000. -/
def scenario_p0 : Product :=
  new_product "idA" "urlA" "t0" (ScrapeResult.parsed (some 1000) "Widget")

/-- Scenario: the add route run on an empty store with observed price 1000. -/
def scenario_add : FileState × Bool :=
  add_product "idA" "urlA" "t0" (ScrapeResult.parsed (some 1000) "Widget")
    FileState.missing

/-- Scenario: the next sweep observes 900. -/
def scenario_s1 : Product × Option DropAlert :=
  sweepProduct (ScrapeResult.parsed (some 900) "Widget") "t1" scenario_p0

/-- Scenario: the next sweep observes 950. -/
def scenario_s2 : Product × Option DropAlert :=
  sweepProduct (ScrapeResult.parsed (some 950) "Widget") "t2" scenario_s1.1

/-- Scenario: the next sweep's fetch fails. -/
def scenario_s3 : Product × Option DropAlert :=
  sweepProduct ScrapeResult.fail "t3" scenario_s2.1

/-- Characterization of the alert decision in `update_all_products`: a drop
message is sent for a product exactly when the sweep observes a present price
that both beats the stored lowest price (or that price is absent) and is
strictly below the previous current price.  The alert conditional sits inside
the lowest-price branch in the source, which is why the new-low condition
appears here. -/
theorem sweep_alert_iff (res : ScrapeResult) (now : String) (p : Product) :
    ((sweepProduct res now p).2).isSome = true ↔
      ∃ fp, res.price = some fp ∧
        (∀ low, p.lowest_price = some low → fp < low) ∧
        ∃ op, p.current_price = some op ∧ fp < op := by
  cases res with
  | fail => simp [sweepProduct, ScrapeResult.price]
  | parsed pr nm =>
    cases pr with
    | none => simp [sweepProduct, ScrapeResult.price]
    | some fp =>
      cases hl : p.lowest_price with
      | none =>
        cases hc : p.current_price with
        | none => simp [sweepProduct, ScrapeResult.price, dropMsg, hl, hc]
        | some op =>
          simp only [sweepProduct, ScrapeResult.price, dropMsg, hl, hc]
          split_ifs with h <;> simp [h, hc]
      | some low =>
        cases hc : p.current_price with
        | none =>
          simp only [sweepProduct, ScrapeResult.price, dropMsg, hl, hc]
          split_ifs <;> simp
        | some op =>
          simp only [sweepProduct, ScrapeResult.price, dropMsg, hl, hc]
          split_ifs with h1 h2 <;> simp_all

/-- A sweep never increases a present stored lowest price. -/
theorem sweepProduct_lowest_mono (res : ScrapeResult) (now : String)
    (p : Product) (low low' : ℚ) (h : p.lowest_price = some low)
    (h' : ((sweepProduct res now p).1).lowest_price = some low') :
    low' ≤ low := by
  cases res with
  | fail =>
    simp [sweepProduct] at h'
    rw [h] at h'
    exact le_of_eq (Option.some.inj h').symm
  | parsed pr nm =>
    cases pr with
    | none =>
      simp [sweepProduct] at h'
      rw [h] at h'
      exact le_of_eq (Option.some.inj h').symm
    | some fp =>
      simp only [sweepProduct, h] at h'
      split_ifs at h' with hf
      · simp at h'
        exact le_of_lt (h' ▸ hf)
      · simp at h'
        exact le_of_eq h'.symm

/-- The per-product sweep step preserves the lowest-at-most-current
invariant. -/
theorem sweepProduct_lowLeCur (res : ScrapeResult) (now : String)
    (p : Product) (h : lowLeCur p) : lowLeCur (sweepProduct res now p).1 := by
  cases res with
  | fail => simpa [sweepProduct] using h
  | parsed pr nm =>
    cases pr with
    | none => simpa [sweepProduct] using h
    | some fp =>
      intro low cp hlow hcp
      cases hl : p.lowest_price with
      | none =>
        simp only [sweepProduct, hl] at hlow hcp
        simp at hlow hcp
        rw [← hlow, ← hcp]
      | some current_lowest =>
        simp only [sweepProduct, hl] at hlow hcp
        split_ifs at hlow hcp with hf
        · simp at hlow hcp
          rw [← hlow, ← hcp]
        · simp at hlow hcp
          rw [← hlow, ← hcp]
          exact le_of_not_lt hf

/-- The record built by the add route satisfies the lowest-at-most-current
invariant (both fields are set to the same scraped price). -/
theorem new_product_lowLeCur (newId url now : String) (res : ScrapeResult) :
    lowLeCur (new_product newId url now res) := by
  intro low cp hlow hcp
  simp only [new_product] at hlow hcp
  rw [hlow] at hcp
  exact le_of_eq (Option.some.inj hcp)

/-- Every record in a reachable store satisfies the lowest-at-most-current
invariant. -/
theorem reachable_lowLeCur {fs : FileState} (h : Reachable fs) :
    ∀ p ∈ load_products fs, lowLeCur p := by
  induction h with
  | init => intro p hp; simp [load_products] at hp
  | add newId url now res hfs ih =>
    intro p hp
    by_cases hu : url = ""
    · exact ih p (by simpa [add_product, hu] using hp)
    · simp only [add_product, if_neg hu, save_products, load_products,
        List.mem_append, List.mem_singleton] at hp
      rcases hp with hp | hp
      · exact ih p hp
      · exact hp ▸ new_product_lowLeCur newId url now res
  | sweep scr now hfs ih =>
    intro p hp
    simp only [update_all_products_once, update_products, save_products,
      load_products, List.mem_map] at hp
    obtain ⟨q, hq, rfl⟩ := hp
    exact sweepProduct_lowLeCur _ now q (ih q hq)
  | del product_id hfs ih =>
    intro p hp
    simp only [delete_product, save_products, load_products,
      List.mem_filter] at hp
    exact ih p hp.1

/-- C1, counterexample: for the record `pDemo` (current price 1000, lowest
price 800) a sweep observing the present price 900 sees 900 strictly below
the preceding current price 1000, yet no drop message is sent, because 900
does not beat the stored lowest price 800 and the alert sits inside the
new-low branch.  This refutes the claimed "if and only if". -/
theorem C1_counterexample :
    pDemo.current_price = some 1000 ∧ (900 : ℚ) < 1000 ∧
    (ScrapeResult.parsed (some 900) "n1").price = some 900 ∧
    (sweepProduct (ScrapeResult.parsed (some 900) "n1") "t1" pDemo).2 = none := by
  refine ⟨rfl, by norm_num, rfl, ?_⟩
  norm_num [sweepProduct, dropMsg, pDemo]

/-- C1, amended: a drop message is sent for a product if and only if the
sweep observes a present price that is a new strict low (the stored lowest
price is absent or strictly beaten) and is strictly below the immediately
preceding present current price; in particular none is sent on a product's
first successful observation. -/
theorem C1_drop_alert_iff (res : ScrapeResult) (now : String) (p : Product) :
    ((sweepProduct res now p).2).isSome = true ↔
      ∃ fp, res.price = some fp ∧
        (∀ low, p.lowest_price = some low → fp < low) ∧
        ∃ op, p.current_price = some op ∧ fp < op :=
  sweep_alert_iff res now p

/-- C2: the drop-message path is reachable only when the stored lowest price
is absent or strictly beaten by the new price (in addition to the new price
being strictly below the previous current price), and a new price at or above
a present stored lowest price produces no message even when it is strictly
below the previous current price. -/
theorem C2_new_low_gate (res : ScrapeResult) (now : String) (p : Product) :
    (((sweepProduct res now p).2).isSome = true →
      ∃ fp, res.price = some fp ∧
        (p.lowest_price = none ∨ ∃ low, p.lowest_price = some low ∧ fp < low) ∧
        ∃ op, p.current_price = some op ∧ fp < op) ∧
    (∀ fp low op, res.price = some fp → p.lowest_price = some low →
      p.current_price = some op → fp < op → low ≤ fp →
      (sweepProduct res now p).2 = none) := by
  constructor
  · intro h
    obtain ⟨fp, hfp, hlow, hop⟩ := (sweep_alert_iff res now p).mp h
    refine ⟨fp, hfp, ?_, hop⟩
    cases hl : p.lowest_price with
    | none => exact Or.inl rfl
    | some low => exact Or.inr ⟨low, rfl, hlow low hl⟩
  · intro fp low op hfp hlow hop hdrop hle
    cases hA : (sweepProduct res now p).2 with
    | none => rfl
    | some a =>
      exfalso
      obtain ⟨fp', hfp', hlow', _⟩ := (sweep_alert_iff res now p).mp (by simp [hA])
      rw [hfp] at hfp'
      have hfe : fp = fp' := Option.some.inj hfp'
      have hlt := hlow' low hlow
      rw [← hfe] at hlt
      exact absurd (lt_of_le_of_lt hle hlt) (lt_irrefl low)

/-- C3: when the fetch fails or the extracted price is absent, the sweep
leaves the product's record — in particular its current price, lowest price
and last-check time — completely unchanged and sends no message. -/
theorem C3_absent_price_frame (res : ScrapeResult) (now : String)
    (p : Product) (h : res.price = none) : sweepProduct res now p = (p, none) := by
  cases res with
  | fail => rfl
  | parsed pr nm =>
    cases pr with
    | none => rfl
    | some q => simp [ScrapeResult.price] at h

/-- C3, witness: a failed fetch leaves the concrete record `pDemo`
untouched. -/
theorem C3_absent_price_frame_witness :
    sweepProduct ScrapeResult.fail "t1" pDemo = (pDemo, none) :=
  C3_absent_price_frame ScrapeResult.fail "t1" pDemo rfl

/-- C4: a sweep never increases a present lowest price; the record built by
the add route has lowest price at most current price whenever both are
present; and in every store reachable through add, sweep and delete, every
record has lowest price at most current price whenever both are present. -/
theorem C4_lowest_monotone_and_bounds :
    (∀ res now p low low', p.lowest_price = some low →
        ((sweepProduct res now p).1).lowest_price = some low' → low' ≤ low) ∧
    (∀ newId url now res low cp,
        (new_product newId url now res).lowest_price = some low →
        (new_product newId url now res).current_price = some cp → low ≤ cp) ∧
    (∀ fs, Reachable fs → ∀ p ∈ load_products fs, ∀ low cp,
        p.lowest_price = some low → p.current_price = some cp → low ≤ cp) :=
  ⟨fun res now p low low' h h' => sweepProduct_lowest_mono res now p low low' h h',
   fun newId url now res low cp h h' => new_product_lowLeCur newId url now res low cp h h',
   fun _ h p hp low cp h1 h2 => reachable_lowLeCur h p hp low cp h1 h2⟩

/-- C5, counterexample: when the immediate scrape observes the price 0 the
new-product message is sent (the price is present), and the record's current
price is present, yet its last-check time is absent, because line 147 of the
source tests the price's truthiness rather than its presence.  This refutes
"lastCheckedAt = now if a price was observed". -/
theorem C5_counterexample :
    ((ScrapeResult.parsed (some 0) "N0").price).isSome = true ∧
    (add_product "i0" "u0" "t0" (ScrapeResult.parsed (some 0) "N0")
        FileState.missing).2 = true ∧
    (new_product "i0" "u0" "t0" (ScrapeResult.parsed (some 0) "N0")).current_price
        = some 0 ∧
    (new_product "i0" "u0" "t0" (ScrapeResult.parsed (some 0) "N0")).last_check
        = none := by
  have hne : ("u0" : String) ≠ "" := by decide
  refine ⟨rfl, by simp [add_product, if_neg hne, ScrapeResult.price], rfl, ?_⟩
  norm_num [new_product, truthyPrice, ScrapeResult.price]

/-- C5, amended: for a non-empty url the add route persists, immediately and
in one step, the prior collection with exactly one new record appended,
carrying the supplied fresh id and the url, current price and lowest price
both equal to the scraped price (absent when the scrape fails), and a
last-check time equal to now when the observed price is present and nonzero
but absent when the price is absent or zero; the new-product message is sent
if and only if a price was observed. -/
theorem C5_add_product_spec (newId url now : String) (res : ScrapeResult)
    (fs : FileState) (h : url ≠ "") :
    (add_product newId url now res fs).1 =
      save_products (load_products fs ++ [new_product newId url now res]) ∧
    (add_product newId url now res fs).2 = (res.price).isSome ∧
    (new_product newId url now res).id = newId ∧
    (new_product newId url now res).url = url ∧
    (new_product newId url now res).current_price = res.price ∧
    (new_product newId url now res).lowest_price = res.price ∧
    (res.price = none → (new_product newId url now res).last_check = none) ∧
    (res.price = some 0 → (new_product newId url now res).last_check = none) ∧
    (∀ q, res.price = some q → q ≠ 0 →
      (new_product newId url now res).last_check = some now) := by
  refine ⟨by simp [add_product, h], by simp [add_product, h],
    rfl, rfl, rfl, rfl, ?_, ?_, ?_⟩
  · intro hq; simp [new_product, truthyPrice, hq]
  · intro hq; simp [new_product, truthyPrice, hq]
  · intro q hq hq0; simp [new_product, truthyPrice, hq, hq0]

/-- C5, witness: the add-route specification applied to a concrete non-empty
url and an observed price of 5. -/
theorem C5_add_product_spec_witness :
    (new_product "i1" "u1" "t1" (ScrapeResult.parsed (some 5) "N1")).id = "i1" :=
  (C5_add_product_spec "i1" "u1" "t1" (ScrapeResult.parsed (some 5) "N1")
    FileState.missing (by decide)).2.2.1

/-- C6: the delete route persists exactly the previous collection with every
record carrying the given id removed — the survivors keep their values and
relative order — and when no record carries the id the persisted collection
is unchanged. -/
theorem C6_delete_product_spec (product_id : String) (fs : FileState) :
    load_products (delete_product product_id fs) =
      (load_products fs).filter (fun p => p.id != product_id) ∧
    (load_products (delete_product product_id fs)).Sublist (load_products fs) ∧
    (∀ p ∈ load_products (delete_product product_id fs), p.id ≠ product_id) ∧
    ((∀ p ∈ load_products fs, p.id ≠ product_id) →
      load_products (delete_product product_id fs) = load_products fs) := by
  refine ⟨rfl, List.filter_sublist _, ?_, ?_⟩
  · intro p hp
    have h2 := (List.mem_filter.mp hp).2
    simpa using h2
  · intro hall
    show List.filter _ (load_products fs) = load_products fs
    rw [List.filter_eq_self]
    intro a ha
    simpa using hall a ha

/-- C7: loading returns the empty collection, rather than failing, on a
missing or corrupt (unparseable) backing file, and on every file state it
returns some list — either the empty one or exactly the stored records. -/
theorem C7_load_total :
    load_products FileState.missing = [] ∧
    load_products FileState.corrupt = [] ∧
    load_products FileState.truncated = [] ∧
    ∀ fs, load_products fs = [] ∨ fs = FileState.data (load_products fs) := by
  refine ⟨rfl, rfl, rfl, fun fs => ?_⟩
  cases fs <;> simp [load_products]

/-- C8, counterexample: starting from a readable store holding `pDemo`, the
write performed by `save_products` exposes the truncated intermediate state
to a concurrent reader; that state is not readable as a well-formed document
and does not yield the previously persisted collection.  This refutes the
claimed atomic-swap semantics of `open(file, "w")` followed by
`json.dump`. -/
theorem C8_counterexample :
    readable (FileState.data [pDemo]) = true ∧
    FileState.truncated ∈ save_products_trace [] ∧
    readable FileState.truncated = false ∧
    load_products FileState.truncated ≠ [pDemo] := by
  refine ⟨rfl, by simp [save_products_trace], rfl, by simp [load_products]⟩

/-- C8, amended: the save is a full replace but is not atomic — it truncates
the file in place, so a concurrent reader can observe the truncated,
unreadable intermediate state, which loading treats as the empty collection;
only the final state of the write holds the new collection in full. -/
theorem C8_save_in_place (ps : List Product) :
    FileState.truncated ∈ save_products_trace ps ∧
    readable FileState.truncated = false ∧
    load_products FileState.truncated = [] ∧
    (save_products_trace ps).getLast? = some (save_products ps) ∧
    load_products (save_products ps) = ps := by
  refine ⟨by simp [save_products_trace], rfl, rfl, rfl, rfl⟩

/-- C9: saving a just-loaded collection and loading again reproduces it —
the save-after-load round trip is idempotent with respect to the persisted
collection, from every file state. -/
theorem C9_round_trip (fs : FileState) :
    load_products (save_products (load_products fs)) = load_products fs := by
  cases fs <;> rfl

/-- C10: in the concrete scenario, adding the product with observed price
1000 persists a record with current price and lowest price both 1000 and
sends the new-product message; the sweep observing 900 sets both prices to
900 and sends a drop message with drop amount 100; the sweep observing 950
sets the current price to 950, keeps the lowest price at 900 and sends
nothing; and the sweep whose fetch fails changes nothing. -/
theorem C10_scenario :
    scenario_p0.current_price = some 1000 ∧
    scenario_p0.lowest_price = some 1000 ∧
    scenario_add.1 = save_products [scenario_p0] ∧
    scenario_add.2 = true ∧
    scenario_s1.1.current_price = some 900 ∧
    scenario_s1.1.lowest_price = some 900 ∧
    scenario_s1.2 = some ⟨"Widget", 1000, 900, 100, "urlA"⟩ ∧
    scenario_s2.1.current_price = some 950 ∧
    scenario_s2.1.lowest_price = some 900 ∧
    scenario_s2.2 = none ∧
    scenario_s3 = (scenario_s2.1, none) := by
  have hne : ("urlA" : String) ≠ "" := by decide
  refine ⟨rfl, rfl, by simp [scenario_add, scenario_p0, add_product, if_neg hne,
      load_products, save_products], rfl, ?_, ?_, ?_, ?_, ?_, ?_, ?_⟩ <;>
    norm_num [scenario_s1, scenario_s2, scenario_s3, scenario_p0,
      new_product, truthyPrice, sweepProduct, dropMsg, ScrapeResult.price]

end PriceAlert
